import Mathlib

/-!
Shallow embedding of the selection/undo/notification core of `tscat_gui`
(`src/tscat_gui/__init__.py`): the `TSCatGUI.__state_changed` handler
(selection synchronization, model reset, command enablement), the native
selection-changed handlers with their `programmatic_select` origin guard,
the external signal emission, the undo/redo drop-down menu construction,
and the public mutator methods `update_event_range`, `create_event`,
`move_to_trash`. Helpers living in modules outside the given source file
(`utils/helper.py`, `model.py`, `state.py`) are modelled from the
specification and marked as such in their doc comments.

Two error paths of the source are modelled explicitly rather than
collapsed: the catalogue branch of `__state_changed` dereferences
`self.catalogue_sort_filter_model`, whose only assignment (lines 253-256)
is commented out, so every catalogue-kind call raises `AttributeError` at
line 68; and the enablement loop (lines 102-106) calls
`entity.is_removed()` unconditionally on the lookup result, so a stale
UUID raises inside the loop instead of being skipped.
-/

namespace TscatGui

/-- Entity kind tag: `tscat._Catalogue` or `tscat._Event`. -/
inductive EntityType where
  | catalogue
  | event
deriving DecidableEq, Repr

/-- Action verbs of the state-change protocol handled by
`TSCatGUI.__state_changed` (source line 62). -/
inductive ActionVerb where
  | changed
  | moved
  | inserted
  | deleted
  | active_select
  | passive_select
deriving DecidableEq, Repr

/-- A stored entity as seen through the Entity Store Adapter: UUID, kind,
trashed flag (`is_removed()`), event time range (`start`/`stop`), and for
a catalogue the UUIDs of its member events. -/
structure Entity where
  uuid : String
  type : EntityType
  removed : Bool
  start : Int
  stop : Int
  members : List String
deriving DecidableEq, Repr

/-- The entity store, a collection of entities addressed by UUID. -/
abbrev Store := List Entity

/-- Modelled from the spec: `get_entity_from_uuid_safe`
(`tscat_gui/utils/helper.py`, not under `src/`) is the Entity Store
Adapter's `resolve(UUID) -> Entity | NotFound`; selection-sync lookups on
a stale UUID fail soft. -/
def get_entity_from_uuid_safe (store : Store) (uuid : String) : Option Entity :=
  store.find? (fun e => e.uuid == uuid)

/-- Modelled from the spec: the view model's `index_from_uuid`
(`tscat_gui/model.py`, not under `src/`) maps a UUID to the view index of
the matching entity; a stale UUID resolves to no valid index. -/
def index_from_uuid (store : Store) (uuid : String) : Option Nat :=
  store.findIdx? (fun e => e.uuid == uuid)

/-- The view indexes selected when `__state_changed` re-applies a UUID
selection (source lines 67-73 and 79-86): each UUID is mapped through the
view's index function and each valid index is selected; a UUID without a
valid index selects nothing. -/
def selection_indexes (store : Store) (uuids : List String) : List Nat :=
  uuids.filterMap (index_from_uuid store)

/-- Enablement flags of the five entity-scoped toolbar actions of
`TSCatGUI`. -/
structure EnablementFlags where
  move_to_trash_action : Bool
  restore_from_trash_action : Bool
  delete_action : Bool
  new_event_action : Bool
  export_action : Bool
deriving DecidableEq, Repr

/-- The restore/move-to-trash accumulation loop of `__state_changed`
(source lines 100-106): iterates `map(get_entity_from_uuid_safe, uuids)`
and calls `entity.is_removed()` unconditionally on every result, with
`enable_restore |= entity.is_removed()` and
`enable_move_to_trash |= not entity.is_removed()`. Under the store
adapter's `Entity | NotFound` contract a stale UUID therefore raises at
the `is_removed()` call: the loop aborts (`none`), the accumulated local
flags are discarded, and the `setEnabled` calls of lines 108-111 are
never reached. -/
def enablement_loop (store : Store) : List String → Bool × Bool → Option (Bool × Bool)
  | [], acc => some acc
  | uuid :: rest, acc =>
      match get_entity_from_uuid_safe store uuid with
      | none => none
      | some entity =>
          enablement_loop store rest
            (if entity.removed then (true, acc.2) else (acc.1, true))

/-- Observable effect of one `TSCatGUI.__state_changed` invocation: whether
each backing model was reset, the selection re-applied to each view
(`none` means that view's selection was never (re-)applied), the resulting
enablement flags, and whether the handler aborted with an uncaught
exception. -/
structure StateChangedResult where
  catalogue_model_reset : Bool
  events_model_reset : Bool
  catalogues_view_selection : Option (List Nat)
  events_view_selection : Option (List Nat)
  flags : EnablementFlags
  raised : Bool
deriving DecidableEq, Repr

/-- The enablement block of `__state_changed` (source lines 89-111), run
on `active_select`: all five flags are disabled first (lines 90-94); for a
non-empty selection `new_event` is enabled iff exactly one UUID (lines
96-98); then the entity loop runs and, if it completes, lines 108-111 set
restore/move-to-trash from the accumulators and enable delete/export. If
the loop raises on a stale UUID, the block aborts with only the
disable-all and the `new_event` assignment having taken effect. Returns
the resulting flags and whether the block raised. -/
def enablement_block (store : Store) (uuids : List String) :
    EnablementFlags × Bool :=
  let cleared : EnablementFlags := ⟨false, false, false, false, false⟩
  if uuids = [] then (cleared, false)
  else
    let withNewEvent :=
      if uuids.length = 1 then { cleared with new_event_action := true } else cleared
    match enablement_loop store uuids (false, false) with
    | none => (withNewEvent, true)
    | some loopResult =>
        ({ withNewEvent with
            restore_from_trash_action := loopResult.1
            move_to_trash_action := loopResult.2
            delete_action := true
            export_action := true }, false)

/-- `TSCatGUI.__state_changed` (source lines 60-111). Catalogue branch
(lines 63-74): line 65 resets the catalogue model for the mutation verbs,
then line 68 dereferences `self.catalogue_sort_filter_model` — an
attribute that is never assigned, its creation (lines 253-256) being
commented out — so the handler raises `AttributeError` before the origin
guard is set, before the selection is re-applied, and before the
enablement block is reached; the pre-call flags survive unchanged. Events
branch (lines 76-87): `events_sort_model` is assigned, so the model reset
(mutation verbs only) and the selection re-apply complete, and for
`active_select` the enablement block of lines 89-111 then runs (and may
itself raise inside the entity loop). `flags` is the enablement state
before the call. -/
def state_changed (store : Store) (action : ActionVerb) (type : EntityType)
    (uuids : List String) (flags : EnablementFlags) : StateChangedResult :=
  if action ∈ [ActionVerb.changed, .moved, .inserted, .deleted, .active_select,
      .passive_select] then
    if type = EntityType.catalogue then
      { catalogue_model_reset :=
          decide (action ∉ [ActionVerb.active_select, .passive_select])
        events_model_reset := false
        catalogues_view_selection := none
        events_view_selection := none
        flags := flags
        raised := true }
    else
      let base : StateChangedResult :=
        { catalogue_model_reset := false
          events_model_reset :=
            decide (action ∉ [ActionVerb.active_select, .passive_select])
          catalogues_view_selection := none
          events_view_selection := some (selection_indexes store uuids)
          flags := flags
          raised := false }
      if action = ActionVerb.active_select then
        let eb := enablement_block store uuids
        { base with flags := eb.1, raised := eb.2 }
      else base
  else
    { catalogue_model_reset := false
      events_model_reset := false
      catalogues_view_selection := none
      events_view_selection := none
      flags := flags
      raised := false }

/-- One broadcast action of the protocol: verb, entity kind, affected or
selected UUIDs. -/
structure Action where
  verb : ActionVerb
  type : EntityType
  uuids : List String
deriving DecidableEq, Repr

/-- `TSCatGUI.__current_event_changed` / `__catalogue_selection_changed`
(source lines 113-121): the native selection-changed handler notifies
`active_select` with the currently selected UUIDs unless the origin guard
`programmatic_select` is set. Returns the notifications it issues. -/
def selection_changed_handler (programmatic_select : Bool) (type : EntityType)
    (selectedUuids : List String) : List Action :=
  if programmatic_select = false then
    [⟨ActionVerb.active_select, type, selectedUuids⟩]
  else []

/-- The programmatic selection rebuild inside `__state_changed` (source
lines 69-74 and 81-87): set `programmatic_select` to `True`, clear the
view selection, select the target indexes one by one, reset the guard to
`False`. The native selection-changed signal is direct-connected, so the
clear and every single select invoke the handler synchronously with the
guard as it stands at that moment. Returns the final guard value and all
notifications the rebuild caused. -/
def programmatic_rebuild (type : EntityType) (uuids : List String) (_guard : Bool) :
    Bool × List Action :=
  let guard := true
  let fromClear := selection_changed_handler guard type []
  let fromSelects :=
    ((List.range uuids.length).map
      (fun k => selection_changed_handler guard type (uuids.take (k + 1)))).flatten
  let guard := false
  (guard, fromClear ++ fromSelects)

/-- A single user selection: the native signal fires with the guard unset,
the handler notifies once, and each notification drives `__state_changed`,
whose programmatic rebuild fires further native signals under the guard.
Returns every `active_select` notification produced by the click. -/
def user_click (type : EntityType) (uuids : List String) : List Action :=
  let direct := selection_changed_handler false type uuids
  direct ++ (direct.map (fun a => (programmatic_rebuild a.type a.uuids false).2)).flatten

/-- One of the four notification channels exposed to external observers. -/
inductive ExternalSignal where
  | events_selected (uuids : List String)
  | catalogues_selected (uuids : List String)
  | events_changed (uuids : List String)
  | catalogues_changed (uuids : List String)
deriving DecidableEq, Repr

/-- `TSCatGUI._external_signal_emission` (source lines 400-411): emits the
selected channels on `active_select`, the changed channels on `changed`,
and nothing otherwise. -/
def external_signal_emission (action : ActionVerb) (type : EntityType)
    (uuids : List String) : List ExternalSignal :=
  if action = ActionVerb.active_select then
    if type = EntityType.catalogue then [.catalogues_selected uuids]
    else [.events_selected uuids]
  else if action = ActionVerb.changed then
    if type = EntityType.catalogue then [.catalogues_changed uuids]
    else [.events_changed uuids]
  else []

/-- An entry of an undo/redo drop-down menu: either an enabled action whose
trigger calls `setIndex(target)` on the undo stack, or the disabled "more
items" indicator entry. -/
inductive MenuEntry where
  | command (label : String) (target : Int)
  | more (text : String)
deriving DecidableEq, Repr

/-- Python `range(a, b, -1)`: the integers `a, a-1, ..., b+1`. -/
def rangeDown (a b : Int) : List Int :=
  (List.range (a - b).toNat).map (fun (k : Nat) => a - (k : Int))

/-- Python `range(a, b)`: the integers `a, a+1, ..., b-1`. -/
def rangeUp (a b : Int) : List Int :=
  (List.range (b - a).toNat).map (fun (k : Nat) => a + (k : Int))

/-- `TSCatGUI.__create_undo_redo_action_menu_on_toolbutton` (source lines
123-142): one menu action per history index in `index_range`, labelled by
the history command's text and whose trigger calls
`setIndex(i + index_inc)` — `i` is bound per iteration through the
lambda's default argument `_i=i` — followed, when `more_items`, by one
disabled indicator entry. `commandText i` stands for
`state.undo_stack().command(i).text()`. -/
def create_undo_redo_action_menu_on_toolbutton (commandText : Int → String)
    (index_range : List Int) (index_inc : Int) (more_items : Bool)
    (more_items_text : String) : List MenuEntry :=
  (index_range.map (fun i => MenuEntry.command (commandText i) (i + index_inc)))
    ++ (if more_items then [MenuEntry.more more_items_text] else [])

/-- `TSCatGUI.__undo_redo_index_changed` (source lines 144-157): rebuilds
the undo and redo drop-down menus when the history cursor moves to `index`
over a history of `count` entries. Returns `(undo menu, redo menu)`. -/
def undo_redo_index_changed (commandText : Int → String) (count index : Nat) :
    List MenuEntry × List MenuEntry :=
  let max_action_count : Int := 10
  let first_index : Int := max 0 ((index : Int) - max_action_count)
  let undoMenu := create_undo_redo_action_menu_on_toolbutton commandText
    (rangeDown ((index : Int) - 1) (first_index - 1)) 0
    (decide (first_index ≠ 0))
    (toString first_index ++ " more undo actions")
  let last_index : Int := min (count : Int) ((index : Int) + max_action_count)
  let redoMenu := create_undo_redo_action_menu_on_toolbutton commandText
    (rangeUp (index : Int) last_index) 1
    (decide (last_index ≠ (count : Int)))
    (toString ((count : Int) - last_index) ++ " more redo actions")
  (undoMenu, redoMenu)

/-- Whether a menu entry is an enabled history-jump action. -/
def MenuEntry.isCommand : MenuEntry → Bool
  | .command _ _ => true
  | .more _ => false

/-- The text of a disabled "more items" indicator entry. -/
def MenuEntry.moreText : MenuEntry → Option String
  | .command _ _ => none
  | .more text => some text

/-- The `setIndex` target of an enabled menu entry. -/
def MenuEntry.commandTarget : MenuEntry → Option Int
  | .command _ target => some target
  | .more _ => none

/-- Number of enabled (history-jump) entries of a menu. -/
def menuCommandCount (menu : List MenuEntry) : Nat :=
  (menu.filter MenuEntry.isCommand).length

/-- The texts of the disabled "more items" indicator entries of a menu, in
menu order. -/
def menuIndicators (menu : List MenuEntry) : List String :=
  menu.filterMap MenuEntry.moreText

/-- The `setIndex` targets of a menu's enabled entries, in menu order. -/
def menuTargets (menu : List MenuEntry) : List Int :=
  menu.filterMap MenuEntry.commandTarget

/-- The undo history: the executed command labels, the cursor, and the
clean mark. -/
structure UndoHistory where
  entries : List String
  cursor : Nat
  cleanMark : Nat
deriving DecidableEq, Repr

/-- The application state reachable from `TSCatGUI`: the entity store, the
undo history, and the log of actions broadcast so far. -/
structure AppState where
  store : Store
  history : UndoHistory
  broadcasts : List Action
deriving DecidableEq, Repr

/-- Modelled from the spec: `AppState.updated` (`tscat_gui/state.py`, not
under `src/`) is the Action Broadcaster's `notify(verb, kind, uuids)`, the
sole entry point through which a component announces a state change to the
subscribers; it broadcasts the action and does not touch the undo
history. -/
def AppState.updated (s : AppState) (verb : ActionVerb) (type : EntityType)
    (uuids : List String) : AppState :=
  { s with broadcasts := s.broadcasts ++ [⟨verb, type, uuids⟩] }

/-- In-place mutation of the entity with the given UUID in the store. -/
def Store.setEntity (store : Store) (uuid : String) (f : Entity → Entity) : Store :=
  store.map (fun e => if e.uuid == uuid then f e else e)

/-- `TSCatGUI.update_event_range` (source lines 413-417): looks the event
up, mutates its `start`/`stop` in place, and broadcasts `changed` for it
directly — no undo command is pushed. A failed lookup raises before any
mutation or broadcast. -/
def update_event_range (s : AppState) (uuid : String) (start stop : Int) : AppState :=
  match get_entity_from_uuid_safe s.store uuid with
  | none => s
  | some _ =>
      let s1 := { s with
        store := s.store.setEntity uuid (fun e => { e with start := start, stop := stop }) }
      s1.updated ActionVerb.changed EntityType.event [uuid]

/-- `TSCatGUI.create_event` (source lines 419-428): resolves the catalogue,
asserts it is a catalogue, creates the event in the store (`uuid` is the
fresh UUID the store picks), adds it to the catalogue, and broadcasts
`inserted` for the new event directly — no undo command is pushed. A
failed lookup or assertion raises before any mutation or broadcast. -/
def create_event (s : AppState) (start stop : Int) (_author : String)
    (catalogue_uuid : String) (uuid : String) : AppState :=
  match get_entity_from_uuid_safe s.store catalogue_uuid with
  | none => s
  | some catalogue =>
      if catalogue.type = EntityType.catalogue then
        let s1 := { s with
          store := s.store ++ [Entity.mk uuid EntityType.event false start stop []] }
        let s2 := { s1 with
          store := s1.store.setEntity catalogue_uuid
            (fun c => { c with members := c.members ++ [uuid] }) }
        s2.updated ActionVerb.inserted EntityType.event [uuid]
      else s

/-- `TSCatGUI.move_to_trash` (source lines 430-433): resolves the entity,
calls `remove()` on it, and broadcasts `moved` with the entity's own kind
directly — no undo command is pushed. A failed lookup raises before any
mutation or broadcast. -/
def move_to_trash (s : AppState) (uuid : String) : AppState :=
  match get_entity_from_uuid_safe s.store uuid with
  | none => s
  | some entity =>
      let s1 := { s with
        store := s.store.setEntity uuid (fun e => { e with removed := true }) }
      s1.updated ActionVerb.moved entity.type [uuid]

lemma enablement_block_new_event (store : Store) (uuids : List String) :
    (enablement_block store uuids).1.new_event_action
      = decide (uuids.length = 1) := by
  unfold enablement_block
  cases uuids with
  | nil => simp
  | cons u us =>
      cases hl : enablement_loop store (u :: us) (false, false) <;>
        by_cases h : us = [] <;> simp [h, hl]

/-- C1: a programmatic selection rebuild (the handler of a notify sets the
origin guard, clears the view selection, re-selects index by index, then
resets the guard) causes no notification at all and leaves the guard
unset; a native selection change arriving with the guard unset issues
exactly one `active_select` notification with the current UUIDs; hence a
single user selection produces exactly one `active_select` notification
and no feedback loop. -/
theorem selection_guard_no_feedback_loop :
    ∀ (type : EntityType) (uuids : List String) (g : Bool),
      (programmatic_rebuild type uuids g).2 = [] ∧
      (programmatic_rebuild type uuids g).1 = false ∧
      selection_changed_handler true type uuids = [] ∧
      selection_changed_handler false type uuids
        = [⟨ActionVerb.active_select, type, uuids⟩] ∧
      user_click type uuids = [⟨ActionVerb.active_select, type, uuids⟩] := by
  intro type uuids g
  refine ⟨?_, rfl, rfl, rfl, ?_⟩
  · simp [programmatic_rebuild, selection_changed_handler]
  · simp [user_click, programmatic_rebuild, selection_changed_handler]

/-- Store holding a single non-trashed Event with UUID `e1`. -/
def singleEventStore : Store := [Entity.mk "e1" EntityType.event false 0 0 []]

/-- All five toolbar actions disabled. -/
def allDisabled : EnablementFlags := ⟨false, false, false, false, false⟩

/-- C2 counterexample: on an `active_select` of the single Event `e1`, the
code enables the "create event" command even though the one selected
entity is an Event, not a Catalogue — the claim says a single-Event
selection leaves "create event" disabled. -/
theorem create_event_enabled_for_single_event :
    (state_changed singleEventStore ActionVerb.active_select EntityType.event
        ["e1"] allDisabled).flags.new_event_action = true ∧
    get_entity_from_uuid_safe singleEventStore "e1"
      = some (Entity.mk "e1" EntityType.event false 0 0 []) := by
  constructor <;> rfl

/-- C2 amended: after every Event-kind `active_select` notification, the
"create event" command is enabled iff exactly one entity is selected,
regardless of the selected entity's kind (the `new_event` assignment of
line 98 survives even a stale-UUID abort of the later loop); a
Catalogue-kind `active_select` raises at line 68 before the enablement
recompute and leaves every flag, `new_event` included, exactly as it
was. -/
theorem new_event_enablement :
    ∀ (store : Store) (uuids : List String) (flags : EnablementFlags),
      (state_changed store ActionVerb.active_select EntityType.event uuids
          flags).flags.new_event_action
        = decide (uuids.length = 1) ∧
      (state_changed store ActionVerb.active_select EntityType.catalogue uuids
          flags).flags = flags := by
  intro store uuids flags
  constructor
  · have h : (state_changed store ActionVerb.active_select EntityType.event uuids
        flags).flags = (enablement_block store uuids).1 := rfl
    rw [h, enablement_block_new_event]
  · rfl

/-- Store holding a single trashed catalogue `b`, for the failing input of
the catalogue-kind enablement recompute. -/
def trashedCatalogueStore : Store :=
  [Entity.mk "b" EntityType.catalogue true 0 0 []]

/-- C3 failing-input evaluation: an `active_select` of the trashed
catalogue `b` — the claim demands that "restore", "delete permanently"
and "export" become enabled — instead raises `AttributeError` at line 68
(`catalogue_sort_filter_model` is never assigned) before the enablement
block of lines 89-111 is ever reached, leaving every command disabled. -/
theorem catalogue_enablement_never_recomputed :
    (state_changed trashedCatalogueStore ActionVerb.active_select
        EntityType.catalogue ["b"] allDisabled).flags = allDisabled ∧
    (state_changed trashedCatalogueStore ActionVerb.active_select
        EntityType.catalogue ["b"] allDisabled).raised = true ∧
    get_entity_from_uuid_safe trashedCatalogueStore "b"
      = some (Entity.mk "b" EntityType.catalogue true 0 0 []) := by
  refine ⟨rfl, rfl, rfl⟩

/-- C4: the enablement flags are recomputed only on `active_select`; a
`passive_select` notification, and likewise `changed`, `moved`,
`inserted` and `deleted`, leaves every enablement flag exactly as it was
before the notification. -/
theorem enablement_untouched_for_non_active_select :
    ∀ (store : Store) (type : EntityType) (uuids : List String)
      (flags : EnablementFlags),
      (state_changed store ActionVerb.passive_select type uuids flags).flags = flags ∧
      (state_changed store ActionVerb.changed type uuids flags).flags = flags ∧
      (state_changed store ActionVerb.moved type uuids flags).flags = flags ∧
      (state_changed store ActionVerb.inserted type uuids flags).flags = flags ∧
      (state_changed store ActionVerb.deleted type uuids flags).flags = flags := by
  intro store type uuids flags
  cases type <;> exact ⟨rfl, rfl, rfl, rfl, rfl⟩

/-- C5: the four external notification channels fire exactly as follows:
catalogues-selected / events-selected (by entity kind) fire on
`active_select`, catalogues-changed / events-changed fire on `changed`,
and no external channel fires for `passive_select`, `inserted`, `deleted`
or `moved`. -/
theorem external_signal_emission_channels :
    ∀ (type : EntityType) (uuids : List String),
      external_signal_emission ActionVerb.active_select EntityType.catalogue uuids
        = [ExternalSignal.catalogues_selected uuids] ∧
      external_signal_emission ActionVerb.active_select EntityType.event uuids
        = [ExternalSignal.events_selected uuids] ∧
      external_signal_emission ActionVerb.changed EntityType.catalogue uuids
        = [ExternalSignal.catalogues_changed uuids] ∧
      external_signal_emission ActionVerb.changed EntityType.event uuids
        = [ExternalSignal.events_changed uuids] ∧
      external_signal_emission ActionVerb.passive_select type uuids = [] ∧
      external_signal_emission ActionVerb.inserted type uuids = [] ∧
      external_signal_emission ActionVerb.deleted type uuids = [] ∧
      external_signal_emission ActionVerb.moved type uuids = [] := by
  intro type uuids
  refine ⟨rfl, rfl, rfl, rfl, rfl, rfl, rfl, rfl⟩

/-- C6 failing-path evaluation: for every Catalogue-kind broadcast, the
model reset of line 65 has already happened iff the verb is a mutation
verb, but line 68 then raises `AttributeError` (the sort-filter proxy is
never assigned) before the catalogue view's selection is re-applied — so
the claim's "the selection is re-applied in both cases" is violated on
every catalogue-kind action. On the events path the claimed table holds:
model reset iff mutation verb, selection always re-applied. -/
theorem catalogue_selection_not_reapplied :
    ∀ (store : Store) (action : ActionVerb) (uuids : List String)
      (flags : EnablementFlags),
      (state_changed store action EntityType.catalogue uuids
          flags).catalogues_view_selection = none ∧
      (state_changed store action EntityType.catalogue uuids flags).raised
        = true ∧
      ((state_changed store action EntityType.catalogue uuids
          flags).catalogue_model_reset = true ↔
        action ∈ [ActionVerb.inserted, .deleted, .moved, .changed]) ∧
      (state_changed store action EntityType.event uuids
          flags).events_view_selection
        = some (selection_indexes store uuids) ∧
      ((state_changed store action EntityType.event uuids
          flags).events_model_reset = true ↔
        action ∈ [ActionVerb.inserted, .deleted, .moved, .changed]) := by
  intro store action uuids flags
  cases action <;> simp [state_changed]

/-- C10: the public methods `update_event_range`, `create_event` and
`move_to_trash` mutate the store and broadcast a `changed` / `inserted` /
`moved` action directly, and never push a command onto the undo history:
the history (entries, cursor and clean mark) is left exactly unchanged by
every call, so none of these mutations can be reverted by undo. -/
theorem public_mutators_leave_undo_history :
    ∀ (s : AppState) (uuid catalogue_uuid event_uuid author : String)
      (start stop : Int),
      (update_event_range s uuid start stop).history = s.history ∧
      (create_event s start stop author catalogue_uuid event_uuid).history
        = s.history ∧
      (move_to_trash s uuid).history = s.history ∧
      ((update_event_range s uuid start stop).broadcasts = s.broadcasts ∨
        (update_event_range s uuid start stop).broadcasts
          = s.broadcasts ++ [⟨ActionVerb.changed, EntityType.event, [uuid]⟩]) ∧
      ((create_event s start stop author catalogue_uuid event_uuid).broadcasts
          = s.broadcasts ∨
        (create_event s start stop author catalogue_uuid event_uuid).broadcasts
          = s.broadcasts ++ [⟨ActionVerb.inserted, EntityType.event, [event_uuid]⟩]) ∧
      ((move_to_trash s uuid).broadcasts = s.broadcasts ∨
        ∃ e, get_entity_from_uuid_safe s.store uuid = some e ∧
          (move_to_trash s uuid).broadcasts
            = s.broadcasts ++ [⟨ActionVerb.moved, e.type, [uuid]⟩]) := by
  intro s uuid catalogue_uuid event_uuid author start stop
  refine ⟨?_, ?_, ?_, ?_, ?_, ?_⟩
  · unfold update_event_range
    cases h : get_entity_from_uuid_safe s.store uuid <;> simp [h, AppState.updated]
  · unfold create_event
    cases h : get_entity_from_uuid_safe s.store catalogue_uuid with
    | none => rfl
    | some c =>
        by_cases hc : c.type = EntityType.catalogue <;> simp [h, hc, AppState.updated]
  · unfold move_to_trash
    cases h : get_entity_from_uuid_safe s.store uuid <;> simp [h, AppState.updated]
  · unfold update_event_range
    cases h : get_entity_from_uuid_safe s.store uuid <;> simp [h, AppState.updated]
  · unfold create_event
    cases h : get_entity_from_uuid_safe s.store catalogue_uuid with
    | none => simp
    | some c =>
        by_cases hc : c.type = EntityType.catalogue <;> simp [h, hc, AppState.updated]
  · unfold move_to_trash
    cases h : get_entity_from_uuid_safe s.store uuid with
    | none => exact Or.inl rfl
    | some e =>
        refine Or.inr ⟨e, rfl, ?_⟩
        simp [AppState.updated]

lemma menuCommandCount_create (ct : Int → String) (rng : List Int) (inc : Int)
    (more : Bool) (txt : String) :
    menuCommandCount
        (create_undo_redo_action_menu_on_toolbutton ct rng inc more txt)
      = rng.length := by
  unfold menuCommandCount create_undo_redo_action_menu_on_toolbutton
  rw [List.filter_append]
  have h1 : (rng.map (fun i => MenuEntry.command (ct i) (i + inc))).filter
      MenuEntry.isCommand = rng.map (fun i => MenuEntry.command (ct i) (i + inc)) := by
    rw [List.filter_eq_self]
    intro a ha
    simp only [List.mem_map] at ha
    obtain ⟨i, _, rfl⟩ := ha
    rfl
  rw [h1]
  cases more <;> simp [MenuEntry.isCommand]

lemma menuIndicators_create (ct : Int → String) (rng : List Int) (inc : Int)
    (more : Bool) (txt : String) :
    menuIndicators
        (create_undo_redo_action_menu_on_toolbutton ct rng inc more txt)
      = if more then [txt] else [] := by
  unfold menuIndicators create_undo_redo_action_menu_on_toolbutton
  rw [List.filterMap_append, List.filterMap_map]
  have h1 : List.filterMap (MenuEntry.moreText ∘ fun i =>
      MenuEntry.command (ct i) (i + inc)) rng = [] := by
    rw [List.filterMap_eq_nil_iff]
    intro a _
    rfl
  rw [h1]
  cases more <;> rfl

lemma menuTargets_create (ct : Int → String) (rng : List Int) (inc : Int)
    (more : Bool) (txt : String) :
    menuTargets (create_undo_redo_action_menu_on_toolbutton ct rng inc more txt)
      = rng.map (fun i => i + inc) := by
  unfold menuTargets create_undo_redo_action_menu_on_toolbutton
  rw [List.filterMap_append, List.filterMap_map]
  have h1 : List.filterMap (MenuEntry.commandTarget ∘ fun i =>
      MenuEntry.command (ct i) (i + inc)) rng = rng.map (fun i => i + inc) := by
    have : (MenuEntry.commandTarget ∘ fun i => MenuEntry.command (ct i) (i + inc))
        = some ∘ (fun i => i + inc) := rfl
    rw [this, List.filterMap_eq_map]
  rw [h1]
  cases more <;> simp [MenuEntry.commandTarget]

lemma rangeDown_length (a b : Int) : (rangeDown a b).length = (a - b).toNat := by
  unfold rangeDown
  rw [List.length_map, List.length_range]

lemma rangeUp_length (a b : Int) : (rangeUp a b).length = (b - a).toNat := by
  unfold rangeUp
  rw [List.length_map, List.length_range]

lemma rangeDown_nodup (a b : Int) : (rangeDown a b).Nodup := by
  unfold rangeDown
  refine List.Nodup.map ?_ (List.nodup_range _)
  intro k1 k2 h
  simp only at h
  omega

lemma rangeUp_nodup (a b : Int) : (rangeUp a b).Nodup := by
  unfold rangeUp
  refine List.Nodup.map ?_ (List.nodup_range _)
  intro k1 k2 h
  simp only at h
  omega

/-- C7: whenever the history cursor moves to `index` over a history of
`count` entries, the rebuilt undo menu lists exactly `min index 10`
commands preceding the cursor and the redo menu exactly
`min (count - index) 10` commands following it; each menu carries one
extra disabled indicator entry iff more items exist beyond the cap of 10,
and that entry states exactly how many additional items exist
(`index - 10` for undo, `count - index - 10` for redo). -/
theorem undo_redo_menu_cap :
    ∀ (commandText : Int → String) (count index : Nat),
      menuCommandCount (undo_redo_index_changed commandText count index).1
        = min index 10 ∧
      menuIndicators (undo_redo_index_changed commandText count index).1
        = (if 10 < index
            then [toString ((index : Int) - 10) ++ " more undo actions"]
            else []) ∧
      menuCommandCount (undo_redo_index_changed commandText count index).2
        = min (count - index) 10 ∧
      menuIndicators (undo_redo_index_changed commandText count index).2
        = (if 10 < count - index
            then [toString ((count : Int) - (index : Int) - 10)
                    ++ " more redo actions"]
            else []) := by
  intro ct count index
  unfold undo_redo_index_changed
  refine ⟨?_, ?_, ?_, ?_⟩
  · rw [menuCommandCount_create, rangeDown_length]
    omega
  · rw [menuIndicators_create]
    by_cases h : 10 < index
    · have h0 : max 0 ((index : Int) - 10) = (index : Int) - 10 := by omega
      have h2 : (index : Int) - 10 ≠ 0 := by omega
      simp [h0, h2, h]
    · have h0 : max 0 ((index : Int) - 10) = 0 := by omega
      simp [h0, h]
  · rw [menuCommandCount_create, rangeUp_length]
    omega
  · rw [menuIndicators_create]
    by_cases h : 10 < count - index
    · have h0 : min (count : Int) ((index : Int) + 10) = (index : Int) + 10 := by
        omega
      have h2 : (index : Int) + 10 ≠ (count : Int) := by omega
      have h3 : (count : Int) - ((index : Int) + 10)
          = (count : Int) - (index : Int) - 10 := by omega
      simp [h0, h2, h3, h]
    · have h0 : min (count : Int) ((index : Int) + 10) = (count : Int) := by omega
      simp [h0, h]

/-- C9: in the rebuilt undo/redo menus, every entry built for history
index `i` has `setIndex (i + 0)` as its trigger target in the undo menu
and `setIndex (i + 1)` in the redo menu (the loop index is captured per
iteration through the lambda's default argument), so the targets of the
menu entries are exactly the iterated history indices, pairwise distinct —
never all equal to the final loop value. -/
theorem menu_entries_capture_own_index :
    ∀ (commandText : Int → String) (count index : Nat),
      menuTargets (undo_redo_index_changed commandText count index).1
        = rangeDown ((index : Int) - 1) (max 0 ((index : Int) - 10) - 1) ∧
      menuTargets (undo_redo_index_changed commandText count index).2
        = (rangeUp (index : Int) (min (count : Int) ((index : Int) + 10))).map
            (fun i => i + 1) ∧
      (menuTargets (undo_redo_index_changed commandText count index).1).Nodup ∧
      (menuTargets (undo_redo_index_changed commandText count index).2).Nodup := by
  intro ct count index
  unfold undo_redo_index_changed
  have hu : menuTargets (create_undo_redo_action_menu_on_toolbutton ct
      (rangeDown ((index : Int) - 1) (max 0 ((index : Int) - 10) - 1)) 0
      (decide (max 0 ((index : Int) - 10) ≠ 0))
      (toString (max 0 ((index : Int) - 10)) ++ " more undo actions"))
      = rangeDown ((index : Int) - 1) (max 0 ((index : Int) - 10) - 1) := by
    rw [menuTargets_create]
    simp
  have hr := menuTargets_create ct
    (rangeUp (index : Int) (min (count : Int) ((index : Int) + 10))) 1
    (decide (min (count : Int) ((index : Int) + 10) ≠ (count : Int)))
    (toString ((count : Int) - min (count : Int) ((index : Int) + 10))
      ++ " more redo actions")
  refine ⟨hu, hr, ?_, ?_⟩
  · rw [hu]
    exact rangeDown_nodup _ _
  · rw [hr]
    refine List.Nodup.map ?_ (rangeUp_nodup _ _)
    intro k1 k2 h
    simp only at h
    omega

/-- Store for the stale-UUID failing input: a live event `a` and a trashed
event `b`; the UUID `z` resolves to nothing. -/
def staleLoopStore : Store :=
  [Entity.mk "a" EntityType.event false 0 0 [],
   Entity.mk "b" EntityType.event true 0 0 []]

/-- C8 failing-input evaluation: an Event-kind `active_select` of
`["a", "z", "b"]`, where `z` is stale and `b` is trashed. The claim
demands that `z` be skipped and `b` still processed (which would enable
"restore"). Instead the enablement loop aborts at `z` — lines 102-106
call `entity.is_removed()` unconditionally on the `NotFound` result — so
`b` is never processed, the `setEnabled` calls of lines 108-111 never
run, and every command stays disabled. The selection re-apply itself
(through the view's index function) does skip `z` and still selects `a`
and `b`. -/
theorem stale_uuid_aborts_enablement_loop :
    get_entity_from_uuid_safe staleLoopStore "z" = none ∧
    get_entity_from_uuid_safe staleLoopStore "b"
      = some (Entity.mk "b" EntityType.event true 0 0 []) ∧
    enablement_loop staleLoopStore ["a", "z", "b"] (false, false) = none ∧
    (state_changed staleLoopStore ActionVerb.active_select EntityType.event
        ["a", "z", "b"] allDisabled).raised = true ∧
    (state_changed staleLoopStore ActionVerb.active_select EntityType.event
        ["a", "z", "b"] allDisabled).flags
      = ⟨false, false, false, false, false⟩ ∧
    (state_changed staleLoopStore ActionVerb.active_select EntityType.event
        ["a", "z", "b"] allDisabled).events_view_selection = some [0, 1] := by
  refine ⟨rfl, rfl, rfl, rfl, rfl, rfl⟩

end TscatGui
